import Mathlib

/-!
Shallow embedding of the Ligue1 travel-emissions engine
(`backend/services/base_transport_service.py`, `car_service.py`,
`train_service.py`, `plane_service.py`, `backend/global_variables.py`).

Modelling conventions:
* Python floats are embedded as `ℚ`, integer second counts as `ℤ`.
* Network I/O is abstracted into explicit function parameters:
  `road : String → String → Option (ℚ × ℤ)` stands for
  `BaseTransportService._get_road_distance_duration` (gateway + cache),
  and `gc : ℚ → ℚ → ℚ → ℚ → ℚ` stands for
  `BaseTransportService.calculate_distance` (the haversine great-circle
  routine, kept abstract because it is transcendental floating-point
  arithmetic; every property verified here is independent of its values).
* Python dicts used as caches are embedded as association lists read with
  `List.lookup`; a dict update is modelled by prepending the new binding
  (lookup returns the most recent one, matching dict overwrite).
* An uncaught Python exception is modelled by an `Option`/`Except`/
  `LoadOutcome.raised` result; a fallible call that the source handles
  in-line keeps its `Option` shape.
-/

/-- Number of passengers (team + staff), `NUMBER_OF_PASSENGERS = 50` in
`backend/global_variables.py`. -/
def NUMBER_OF_PASSENGERS : ℚ := 50

/-- Car emission factor, `AUTO_CAR_EMISSION_FACTOR = 0.030` kgCO2/passenger/km
in `backend/global_variables.py`. -/
def AUTO_CAR_EMISSION_FACTOR : ℚ := 3 / 100

/-- One entry of the car calculator's `travel_steps` breakdown
(`car_service.py`, `route_details["travel_steps"]`). -/
structure TravelStep where
  step_type : String
  from_name : String
  to_name : String
  distance_km : ℚ
  travel_time_seconds : ℤ
deriving DecidableEq

/-- One feeder-car segment recorded by `TrainTrajetService._calculate_car_part`
in `route_details["segments"]`. -/
structure CarSegment where
  from_name : String
  to_name : String
  distance_km : ℚ
  travel_time_seconds : ℤ
  emissions_kg_co2 : ℚ
deriving DecidableEq

/-- One per-section entry of `TrainTrajetService._trip_stats`'s `details` list. -/
structure SectionDetail where
  from_name : String
  to_name : String
  sec_type : String
  distance_km : ℚ
  co2_kg : ℚ
  time_s : ℤ
deriving DecidableEq

/-- Structured embedding of the open-ended `route_details` dict attached to a
`RouteData`; one constructor per dict shape occurring in the source. -/
inductive RouteDetails where
  /-- Successful car route: one-way figures plus the two-direction step list. -/
  | carOk (one_way_distance_km : ℚ) (one_way_duration_seconds : ℤ)
      (one_way_emissions_kg_co2 : ℚ) (travel_steps : List TravelStep)
  /-- Car sentinel detail: the dict holding "No car route found". -/
  | carNoRoute
  /-- Feeder car part of a train route: the two summed segments. -/
  | carPartSegments (segments : List CarSegment)
  /-- Train sentinel detail: the dict holding "No train route found". -/
  | trainNoRoute
  /-- Successful train route: per-section details plus the nested car detail. -/
  | trainOk (train_route_details : List SectionDetail) (car_route_details : RouteDetails)
  /-- Successful plane route detail dict. -/
  | planeOk (flight_distance_km : ℚ) (flight_time_seconds : ℤ)
      (autocar_distance_km : ℚ) (autocar_time_seconds : ℤ)
      (fuel_consumption_kg : ℚ) (plane_emission_kg_co2 : ℚ)
      (autocar_emission_kg_co2 : ℚ) (added_details : String)
deriving DecidableEq

/-- Standardized route record, embedding the `RouteData` dataclass of
`base_transport_service.py`. -/
structure RouteData where
  departure : String
  arrival : String
  travel_time_seconds : ℤ
  distance_km : ℚ
  emissions_kg_co2 : ℚ
  transport_type : String
  route_details : RouteDetails
deriving DecidableEq

/-- Embeds `BaseTransportService._format_coordinates`: "lat,lng" string. -/
def format_coordinates (lat lon : ℚ) : String :=
  toString lat ++ "," ++ toString lon

/-! ### Road distance cache (`base_transport_service.py`) -/

/-- Cache key `f"{origin}|{destination}"` used by the road distance cache. -/
def BaseTransportService.road_key (origin destination : String) : String :=
  origin ++ "|" ++ destination

/-- Embeds `BaseTransportService._get_cached_road_distance`: try the key in
both orderings, since road distance is symmetric. -/
def BaseTransportService.get_cached_road_distance (cache : List (String × ℚ × ℤ))
    (origin destination : String) : Option (ℚ × ℤ) :=
  match cache.lookup (BaseTransportService.road_key origin destination) with
  | some values => some values
  | none => cache.lookup (BaseTransportService.road_key destination origin)

/-- Embeds `BaseTransportService._cache_road_distance`: store under the
`origin|destination` key (dict update modelled by prepending). -/
def BaseTransportService.cache_road_distance (cache : List (String × ℚ × ℤ))
    (origin destination : String) (distance_km : ℚ) (duration_seconds : ℤ) :
    List (String × ℚ × ℤ) :=
  (BaseTransportService.road_key origin destination, distance_km, duration_seconds) :: cache

/-! ### Gateway retry (`BaseTransportService._make_google_maps_request`) -/

/-- Transport-level failures raised by `requests` and caught as
`requests.RequestException` (timeouts, connection errors, and the non-2xx
statuses surfaced by `raise_for_status`). -/
inductive RequestError where
  | timeout
  | connection_error
  | http_error (status : ℕ)
deriving DecidableEq

/-- Recursion core of `BaseTransportService._make_google_maps_request`:
`responses n` is the outcome of the `n`-th HTTP attempt; on an error the
method calls itself with `retries - 1`, and returns `None` at exhaustion. -/
def BaseTransportService.make_request_attempts {α : Type}
    (responses : ℕ → Except RequestError α) : ℕ → ℕ → Option α
  | attempt, 0 =>
    match responses attempt with
    | .ok data => some data
    | .error _ => none
  | attempt, retries + 1 =>
    match responses attempt with
    | .ok data => some data
    | .error _ => BaseTransportService.make_request_attempts responses (attempt + 1) retries

/-- Embeds `BaseTransportService._make_google_maps_request` at its default
`retries=3`. -/
def BaseTransportService.make_google_maps_request {α : Type}
    (responses : ℕ → Except RequestError α) : Option α :=
  BaseTransportService.make_request_attempts responses 0 3

/-! ### Cache loading (`_load_road_distance_cache`, `_load_airport_cache`) -/

/-- Errors `pd.read_csv` / row access can raise while loading a cache file.
`pd.errors.EmptyDataError` and `pd.errors.ParserError` are `ValueError`
subclasses; all four classes below are caught by the road-cache loader's
`except (FileNotFoundError, pd.errors.EmptyDataError, KeyError, ValueError)`. -/
inductive PdReadError where
  | fileNotFound
  | emptyData
  | keyError
  | valueError
deriving DecidableEq

/-- Outcome of a cache-load routine: a cache value (with a flag recording
whether a degradation warning was logged), or an uncaught exception. -/
inductive LoadOutcome (α : Type) where
  | ok (cache : α) (warned : Bool)
  | raised (e : PdReadError)
deriving DecidableEq

/-- One row of the road-distance cache CSV. -/
structure RoadCacheRow where
  origin : String
  destination : String
  distance_km : ℚ
  duration_seconds : ℤ
deriving DecidableEq

/-- One row of the airport cache CSV
(`club_name, airport_name, latitude, longitude, stadium_name`). -/
structure AirportCacheRow where
  club_name : String
  airport_name : String
  latitude : ℚ
  longitude : ℚ
  stadium_name : String
deriving DecidableEq

/-- Value stored in `PlaneTrajetService.airport_cache` for one club. -/
structure AirportData where
  airport_name : String
  latitude : ℚ
  longitude : ℚ
  club_name : String
deriving DecidableEq

/-- Embeds `BaseTransportService._load_road_distance_cache`: a missing file
starts fresh; a read/parse failure of any caught class degrades to an empty
cache with a logged warning; a successful read fills the cache. -/
def BaseTransportService.load_road_distance_cache (file_exists : Bool)
    (read_csv : Except PdReadError (List RoadCacheRow)) :
    LoadOutcome (List (String × ℚ × ℤ)) :=
  if file_exists then
    match read_csv with
    | .ok rows => .ok (rows.map fun r =>
        (BaseTransportService.road_key r.origin r.destination, r.distance_km, r.duration_seconds)) false
    | .error _ => .ok [] true
  else .ok [] false

/-- Embeds `PlaneTrajetService._load_airport_cache`: the source calls
`pd.read_csv` with no existence check and no `try`/`except`, so any read
failure (including a missing file) propagates as an exception. -/
def PlaneTrajetService.load_airport_cache
    (read_csv : Except PdReadError (List AirportCacheRow)) :
    LoadOutcome (List (String × AirportData)) :=
  match read_csv with
  | .ok rows => .ok (rows.map fun r =>
      (r.club_name, ⟨r.airport_name, r.latitude, r.longitude, r.club_name⟩)) false
  | .error e => .raised e

/-! ### Car calculator (`car_service.py`) -/

/-- Embeds `CarTrajetService.calculate_emissions`:
`autocar_emission_factor * distance_km * number_of_passengers`. -/
def CarTrajetService.calculate_emissions (distance_km : ℚ) : ℚ :=
  AUTO_CAR_EMISSION_FACTOR * distance_km * NUMBER_OF_PASSENGERS

/-- Embeds `CarTrajetService.calculate_route`.  `road` stands for
`self._get_road_distance_duration`; `round_trip` defaults to `True` at every
call site in the source and is passed explicitly here. -/
def CarTrajetService.calculate_route (road : String → String → Option (ℚ × ℤ))
    (departure arrival : String) (departure_coords arrival_coords : ℚ × ℚ)
    (round_trip : Bool) : RouteData :=
  let origin_coords := format_coordinates departure_coords.1 departure_coords.2
  let destination_coords := format_coordinates arrival_coords.1 arrival_coords.2
  match road origin_coords destination_coords with
  | some (distance_km, duration_seconds) =>
    let emissions := CarTrajetService.calculate_emissions distance_km
    let multiplier : ℤ := if round_trip then 2 else 1
    { departure := departure
      arrival := arrival
      travel_time_seconds := duration_seconds * multiplier
      distance_km := distance_km * (multiplier : ℚ)
      emissions_kg_co2 := emissions * (multiplier : ℚ)
      transport_type := "car"
      route_details := .carOk distance_km duration_seconds emissions
        [{ step_type := "car", from_name := departure, to_name := arrival,
           distance_km := distance_km, travel_time_seconds := duration_seconds },
         { step_type := "car", from_name := arrival, to_name := departure,
           distance_km := distance_km, travel_time_seconds := duration_seconds }] }
  | none =>
    { departure := departure
      arrival := arrival
      travel_time_seconds := 0
      distance_km := 0
      emissions_kg_co2 := 0
      transport_type := "car"
      route_details := .carNoRoute }

/-! ### Plane calculator (`plane_service.py`) -/

/-- Fixed plane constants from `PlaneTrajetService.__init__`. -/
def PlaneTrajetService.jet_fuel_to_co2 : ℚ := 315 / 100

/-- Fuel regression slope, `1.2174` kg/km. -/
def PlaneTrajetService.fuel_consumption_coef : ℚ := 12174 / 10000

/-- Fuel regression intercept, `282.8615` kg. -/
def PlaneTrajetService.fuel_consumption_intercept : ℚ := 2828615 / 10000

/-- Flight-time regression slope, `0.00120352141554664` h/km. -/
def PlaneTrajetService.time_plane_coef : ℚ := 120352141554664 / 100000000000000000

/-- Flight-time regression intercept, `0.285387849787546` h. -/
def PlaneTrajetService.time_plane_intercept : ℚ := 285387849787546 / 1000000000000000

/-- Non-fuel climate impact inflation factor, `260/141`. -/
def PlaneTrajetService.multiplication_factor_other_than_fuel : ℚ := 260 / 141

/-- Python `int()` applied to a rational: truncation toward zero. -/
def py_int (q : ℚ) : ℤ :=
  if q < 0 then -((-q).floor) else q.floor

/-- Embeds `PlaneTrajetService.calculate_fuel_consumption`. -/
def PlaneTrajetService.calculate_fuel_consumption (distance : ℚ) : ℚ :=
  PlaneTrajetService.fuel_consumption_coef * distance + PlaneTrajetService.fuel_consumption_intercept

/-- Embeds `PlaneTrajetService.calculate_flight_time` (hours truncated to an
int, remaining minutes, then a final truncation to seconds). -/
def PlaneTrajetService.calculate_flight_time (distance : ℚ) : ℤ :=
  let time_in_hours := PlaneTrajetService.time_plane_coef * distance + PlaneTrajetService.time_plane_intercept
  let hours := py_int time_in_hours
  let minutes := (time_in_hours - (hours : ℚ)) * 60
  py_int ((hours : ℚ) * 3600 + minutes * 60)

/-- One candidate returned by the nearby-places request. -/
structure Place where
  display_name : String
  latitude : ℚ
  longitude : ℚ
deriving DecidableEq

/-- Embeds `PlaneTrajetService.airport_keywords`. -/
def PlaneTrajetService.airport_keywords : List String :=
  ["airport", "Airport", "Aeroport", "Aéroport", "aéroport", "aeroport"]

/-- Embeds `PlaneTrajetService.is_real_airport`: case-insensitive substring
containment of any keyword (occurrence tested via `String.splitOn`). -/
def PlaneTrajetService.is_real_airport (place_name : String) : Bool :=
  PlaneTrajetService.airport_keywords.any fun keyword =>
    (place_name.toLower.splitOn keyword.toLower).length > 1

/-- Embeds `PlaneTrajetService.get_nearest_airport`.  `places_response` is the
nearby-places API outcome (`none` = request failed / no payload); the write of
a freshly resolved airport back into the cache is a side effect not needed by
any claim and is elided. -/
def PlaneTrajetService.get_nearest_airport (airport_cache : List (String × AirportData))
    (places_response : Option (List Place)) (club_name : String) (lat lon : ℚ) :
    Except String AirportData :=
  match airport_cache.lookup club_name with
  | some cached => .ok cached
  | none =>
    match places_response with
    | some places =>
      if places.isEmpty then .error "No places found"
      else
        match places.find? (fun place => PlaneTrajetService.is_real_airport place.display_name) with
        | some valid_result =>
          .ok ⟨valid_result.display_name, valid_result.latitude, valid_result.longitude, club_name⟩
        | none => .error "No real airport found in results"
    | none => .error "Request failed"

/-- Embeds `PlaneTrajetService.calculate_route`.  Returns `none` exactly when
either endpoint's airport resolution produced an `"error"` dict; feeder legs
with no road data degrade to zero contributions (`x if x else 0`). -/
def PlaneTrajetService.calculate_route (gc : ℚ → ℚ → ℚ → ℚ → ℚ)
    (road : String → String → Option (ℚ × ℤ))
    (airport_cache : List (String × AirportData))
    (places_dep places_arr : Option (List Place))
    (departure arrival : String) (departure_coords arrival_coords : ℚ × ℚ) :
    Option RouteData :=
  let departure_airport := PlaneTrajetService.get_nearest_airport airport_cache places_dep
    departure departure_coords.1 departure_coords.2
  let arrival_airport := PlaneTrajetService.get_nearest_airport airport_cache places_arr
    arrival arrival_coords.1 arrival_coords.2
  match departure_airport, arrival_airport with
  | .ok dep_airport, .ok arr_airport =>
    let flight_distance :=
      gc dep_airport.latitude dep_airport.longitude arr_airport.latitude arr_airport.longitude * 2
    let flight_time := PlaneTrajetService.calculate_flight_time flight_distance
    let dep_leg := road (format_coordinates departure_coords.1 departure_coords.2)
      (format_coordinates dep_airport.latitude dep_airport.longitude)
    let arr_leg := road (format_coordinates arr_airport.latitude arr_airport.longitude)
      (format_coordinates arrival_coords.1 arrival_coords.2)
    let distance_autocar_dep : ℚ := match dep_leg with | some (d, _) => d | none => 0
    let time_autocar_dep : ℤ := match dep_leg with | some (_, t) => t | none => 0
    let distance_autocar_arr : ℚ := match arr_leg with | some (d, _) => d | none => 0
    let time_autocar_arr : ℤ := match arr_leg with | some (_, t) => t | none => 0
    let added_details :=
      (if distance_autocar_dep = 0 then "No autocar departure route found" else "") ++
      (if distance_autocar_arr = 0 then "No autocar arrival route found" else "")
    let total_distance := flight_distance + distance_autocar_dep + distance_autocar_arr
    let total_time := flight_time + time_autocar_dep + time_autocar_arr
    let fuel_consumption := PlaneTrajetService.calculate_fuel_consumption flight_distance
    let plane_emission := PlaneTrajetService.jet_fuel_to_co2 * fuel_consumption *
      PlaneTrajetService.multiplication_factor_other_than_fuel
    let autocar_emission := AUTO_CAR_EMISSION_FACTOR * NUMBER_OF_PASSENGERS *
      (distance_autocar_dep + distance_autocar_arr)
    let total_emissions := plane_emission + autocar_emission
    some { departure := departure
           arrival := arrival
           travel_time_seconds := total_time
           distance_km := total_distance
           emissions_kg_co2 := total_emissions
           transport_type := "plane"
           route_details := .planeOk flight_distance flight_time
             (distance_autocar_dep + distance_autocar_arr)
             (time_autocar_dep + time_autocar_arr)
             fuel_consumption plane_emission autocar_emission added_details }
  | _, _ => none

/-! ### Train calculator (`train_service.py`) -/

/-- One transit section (ride/walk/transfer) of a journey, with the fields the
service reads: `duration`, `co2_emission.value` (grams, default 0),
`geojson.coordinates` as (lon, lat) vertices, `from.name`, `to.name`, `type`. -/
structure JourneySection where
  duration : ℤ
  co2_emission_value : ℚ
  geojson_coordinates : List (ℚ × ℚ)
  from_name : String
  to_name : String
  sec_type : String
deriving DecidableEq

/-- One candidate journey as accumulated in `week_trains` (the day/station
gathering loop is network I/O; the gathered list is taken as an input here). -/
structure Journey where
  stop_area_departure_id : String
  stop_area_arrival_id : String
  sections : List JourneySection
deriving DecidableEq

/-- Embeds `TrainTrajetService._compute_section_distance`: integrate the
great-circle distance along consecutive polyline vertices; fewer than two
vertices give distance 0. -/
def TrainTrajetService.compute_section_distance (gc : ℚ → ℚ → ℚ → ℚ → ℚ)
    (sec : JourneySection) : ℚ :=
  let coords := sec.geojson_coordinates
  if coords.length < 2 then 0
  else (coords.zip coords.tail).foldl (fun dist p => dist + gc p.1.2 p.1.1 p.2.2 p.2.1) 0

/-- Return value of `TrainTrajetService._trip_stats`. -/
structure TripStats where
  carbon_emission_kgCO2 : ℚ
  distance_km : ℚ
  duration_s : ℤ
  details : List SectionDetail
deriving DecidableEq

/-- One iteration of the `_trip_stats` accumulation loop: all three totals take
every section's contribution, but the detail entry is appended only when the
section's integrated distance is positive. -/
def TrainTrajetService.trip_stats_step (gc : ℚ → ℚ → ℚ → ℚ → ℚ)
    (acc : TripStats) (sec : JourneySection) : TripStats :=
  let sec_time := sec.duration
  let sec_dist := TrainTrajetService.compute_section_distance gc sec
  let sec_co2 := sec.co2_emission_value / 1000
  { carbon_emission_kgCO2 := acc.carbon_emission_kgCO2 + sec_co2
    distance_km := acc.distance_km + sec_dist
    duration_s := acc.duration_s + sec_time
    details :=
      if 0 < sec_dist then
        acc.details ++ [⟨sec.from_name, sec.to_name, sec.sec_type, sec_dist, sec_co2, sec_time⟩]
      else acc.details }

/-- Embeds `TrainTrajetService._trip_stats`. -/
def TrainTrajetService.trip_stats (gc : ℚ → ℚ → ℚ → ℚ → ℚ)
    (sections : List JourneySection) : TripStats :=
  sections.foldl (TrainTrajetService.trip_stats_step gc)
    { carbon_emission_kgCO2 := 0, distance_km := 0, duration_s := 0, details := [] }

/-- The per-section detail entry `_trip_stats` would record for a section. -/
def TrainTrajetService.section_detail (gc : ℚ → ℚ → ℚ → ℚ → ℚ)
    (sec : JourneySection) : SectionDetail :=
  { from_name := sec.from_name, to_name := sec.to_name, sec_type := sec.sec_type,
    distance_km := TrainTrajetService.compute_section_distance gc sec,
    co2_kg := sec.co2_emission_value / 1000, time_s := sec.duration }

/-- Embeds Python's builtin `min(iterable, key=...)` as used for
`fastest_train`: scan left to right, replacing the best element only on a
strictly smaller key, so an exact tie keeps the first-seen element. -/
def pyMinBy {α : Type} (key : α → ℤ) (x : α) : List α → α
  | [] => x
  | y :: ys => pyMinBy key (if key y < key x then y else x) ys

/-- One row of `gare_positions.csv` with the columns the service reads. -/
structure GareRow where
  stop_area_id : String
  gare_name : String
  stadium_name : String
  team_name : String
  latitude : ℚ
  longitude : ℚ
deriving DecidableEq

/-- Embeds the `gare_positions_df.loc[stop_area_id == id] ... [0]` row lookup
(first matching row; an empty match raises, modelled as `none`). -/
def TrainTrajetService.find_row (gare_positions : List GareRow) (stop_area_id : String) :
    Option GareRow :=
  gare_positions.find? fun row => row.stop_area_id == stop_area_id

/-- Embeds `TrainTrajetService._calculate_car_part`.  `stadium_coords` stands
for the `stadium_df` lookup of a stadium's (latitude, longitude); a failed
pandas row lookup raises in the source and is modelled as `none`.  Each feeder
leg goes through `CarTrajetService.calculate_route` with its default
`round_trip=True`, and the two legs are summed as-is. -/
def TrainTrajetService.calculate_car_part (road : String → String → Option (ℚ × ℤ))
    (gare_positions : List GareRow) (stadium_coords : String → Option (ℚ × ℚ))
    (departure arrival departure_stop_area_id arrival_stop_area_id : String) :
    Option RouteData :=
  match TrainTrajetService.find_row gare_positions departure_stop_area_id,
        TrainTrajetService.find_row gare_positions arrival_stop_area_id with
  | some gare_departure_row, some gare_arrival_row =>
    match stadium_coords gare_departure_row.stadium_name,
          stadium_coords gare_arrival_row.stadium_name with
    | some departure_stadium_coords, some arrival_stadium_coords =>
      let car_leg_1 := CarTrajetService.calculate_route road gare_departure_row.stadium_name
        gare_departure_row.gare_name departure_stadium_coords
        (gare_departure_row.latitude, gare_departure_row.longitude) true
      let car_leg_2 := CarTrajetService.calculate_route road gare_arrival_row.stadium_name
        gare_arrival_row.gare_name arrival_stadium_coords
        (gare_arrival_row.latitude, gare_arrival_row.longitude) true
      -- dataclass instances are always truthy, so the source's
      -- `if car_leg_1 and car_leg_2` always takes its first branch
      some { departure := departure
             arrival := arrival
             travel_time_seconds := car_leg_1.travel_time_seconds + car_leg_2.travel_time_seconds
             distance_km := car_leg_1.distance_km + car_leg_2.distance_km
             emissions_kg_co2 := car_leg_1.emissions_kg_co2 + car_leg_2.emissions_kg_co2
             transport_type := "car"
             route_details := .carPartSegments
               [{ from_name := gare_departure_row.stadium_name,
                  to_name := gare_departure_row.gare_name,
                  distance_km := car_leg_1.distance_km,
                  travel_time_seconds := car_leg_1.travel_time_seconds,
                  emissions_kg_co2 := car_leg_1.emissions_kg_co2 },
                { from_name := gare_arrival_row.gare_name,
                  to_name := gare_arrival_row.stadium_name,
                  distance_km := car_leg_2.distance_km,
                  travel_time_seconds := car_leg_2.travel_time_seconds,
                  emissions_kg_co2 := car_leg_2.emissions_kg_co2 }] }
    | _, _ => none
  | _, _ => none

/-- Embeds `TrainTrajetService.calculate_route` from the point where the
candidate list `week_trains` has been gathered (the seven-day SNCF queries are
network I/O; their accumulated result is the `week_trains` parameter).  An
empty candidate list yields the zero sentinel; otherwise the fastest journey
(minimum total duration, first seen on ties) is combined with the feeder car
part: 2× the one-way train figures plus the car part taken as-is, with only
the train CO2 additionally scaled by the passenger count. -/
def TrainTrajetService.calculate_route (gc : ℚ → ℚ → ℚ → ℚ → ℚ)
    (road : String → String → Option (ℚ × ℤ)) (gare_positions : List GareRow)
    (stadium_coords : String → Option (ℚ × ℚ)) (departure arrival : String)
    (week_trains : List Journey) : Option RouteData :=
  match week_trains with
  | [] =>
    some { departure := departure, arrival := arrival, travel_time_seconds := 0,
           distance_km := 0, emissions_kg_co2 := 0, transport_type := "train",
           route_details := .trainNoRoute }
  | t :: ts =>
    let fastest_train :=
      pyMinBy (fun train => (TrainTrajetService.trip_stats gc train.sections).duration_s) t ts
    let fastest_train_route := TrainTrajetService.trip_stats gc fastest_train.sections
    match TrainTrajetService.calculate_car_part road gare_positions stadium_coords
        departure arrival fastest_train.stop_area_departure_id
        fastest_train.stop_area_arrival_id with
    | none => none
    | some car_route =>
      some { departure := departure
             arrival := arrival
             travel_time_seconds := fastest_train_route.duration_s * 2 + car_route.travel_time_seconds
             distance_km := fastest_train_route.distance_km * 2 + car_route.distance_km
             emissions_kg_co2 := fastest_train_route.carbon_emission_kgCO2 * 2 *
               NUMBER_OF_PASSENGERS + car_route.emissions_kg_co2
             transport_type := "train"
             route_details := .trainOk fastest_train_route.details car_route.route_details }

/-! ### All-pairs orchestrator (`BaseTransportService.process_all_routes`) -/

/-- One stadium row of `stadium_df` with the columns the orchestrator reads. -/
structure Stadium where
  team : String
  latitude : ℚ
  longitude : ℚ
deriving DecidableEq

/-- Membership of the unordered pair `{a, b}` in the computed-pair set
(`frozenset((dep, arr))` semantics). -/
def pairMem (pairs : List (String × String)) (a b : String) : Bool :=
  pairs.any fun p => (p.1 == a && p.2 == b) || (p.1 == b && p.2 == a)

/-- Computed-pair set rebuilt from the rows of an existing output file. -/
def pairs_of (rows : List RouteData) : List (String × String) :=
  rows.map fun r => (r.departure, r.arrival)

/-- Inner loop of `process_all_routes` for a fixed departure stadium `s`:
visit every later stadium, skip already-computed pairs, otherwise invoke the
calculator (the attempt is appended to `calls`); a truthy result is recorded
into `routes` and the pair marked computed, a `None` result records nothing.
State travels as (pairs, routes, calls). -/
def BaseTransportService.process_inner
    (calculator : String → String → ℚ × ℚ → ℚ × ℚ → Option RouteData) (s : Stadium) :
    List Stadium → List (String × String) → List RouteData → List (String × String) →
    List (String × String) × List RouteData × List (String × String)
  | [], pairs, routes, calls => (pairs, routes, calls)
  | s2 :: rest, pairs, routes, calls =>
    if pairMem pairs s.team s2.team then
      BaseTransportService.process_inner calculator s rest pairs routes calls
    else
      match calculator s.team s2.team (s.latitude, s.longitude) (s2.latitude, s2.longitude) with
      | some route =>
        BaseTransportService.process_inner calculator s rest (pairs ++ [(s.team, s2.team)])
          (routes ++ [route]) (calls ++ [(s.team, s2.team)])
      | none =>
        BaseTransportService.process_inner calculator s rest pairs routes
          (calls ++ [(s.team, s2.team)])

/-- Outer loop of `process_all_routes`: each stadium is paired with every
stadium after it (`stadium_df.iloc[i + 1 :]`). -/
def BaseTransportService.process_outer
    (calculator : String → String → ℚ × ℚ → ℚ × ℚ → Option RouteData) :
    List Stadium → List (String × String) → List RouteData → List (String × String) →
    List RouteData × List (String × String)
  | [], _, routes, calls => (routes, calls)
  | s :: rest, pairs, routes, calls =>
    match BaseTransportService.process_inner calculator s rest pairs routes calls with
    | (pairs2, routes2, calls2) =>
      BaseTransportService.process_outer calculator rest pairs2 routes2 calls2

/-- Embeds `BaseTransportService.process_all_routes`: `existing` is the parsed
content of the output file (`none` = missing/unreadable, starting fresh); the
result is the final routes list (what `_save_route_data` persists) together
with the list of calculator invocations made. -/
def BaseTransportService.process_all_routes
    (calculator : String → String → ℚ × ℚ → ℚ × ℚ → Option RouteData)
    (existing : Option (List RouteData)) (stadiums : List Stadium) :
    List RouteData × List (String × String) :=
  let routes := match existing with | some rows => rows | none => []
  BaseTransportService.process_outer calculator stadiums (pairs_of routes) routes []

/-! ### Concrete inputs used by witnesses and counterexamples -/

/-- Road lookup of the spec's end-to-end car scenario: every pair of
coordinates is 300 km and 10800 s apart one way. -/
def road300 : String → String → Option (ℚ × ℤ) := fun _ _ => some (300, 10800)

/-- Road lookup that always fails (gateway exhaustion). -/
def road_fail : String → String → Option (ℚ × ℤ) := fun _ _ => none

/-- Road lookup returning 10 km / 600 s for every pair. -/
def road10 : String → String → Option (ℚ × ℤ) := fun _ _ => some (10, 600)

/-- Great-circle stub returning 0 for every pair of points. -/
def gcZero : ℚ → ℚ → ℚ → ℚ → ℚ := fun _ _ _ _ => 0

/-- Great-circle stub returning 100 km for every pair of points. -/
def gc100 : ℚ → ℚ → ℚ → ℚ → ℚ := fun _ _ _ _ => 100

/-- Response stream whose every attempt times out. -/
def err_responses : ℕ → Except RequestError ℕ := fun _ => .error .timeout

/-- Synthetic single-section journey of a given total duration (no polyline
vertices, no provider CO2). -/
def synth_journey (duration : ℤ) : Journey :=
  { stop_area_departure_id := "SA-dep", stop_area_arrival_id := "SA-arr",
    sections := [⟨duration, 0, [], "", "", ""⟩] }

/-- A section with positive duration but no polyline vertices (e.g. a wait). -/
def zero_coord_section : JourneySection :=
  { duration := 3600, co2_emission_value := 0, geojson_coordinates := [],
    from_name := "Wait", to_name := "Wait", sec_type := "waiting" }

/-- Sample airport cache resolving the clubs "Paris" and "Lyon". -/
def airport_cache_sample : List (String × AirportData) :=
  [("Paris", { airport_name := "Paris Airport", latitude := 49, longitude := 2, club_name := "Paris" }),
   ("Lyon", { airport_name := "Lyon Airport", latitude := 45, longitude := 5, club_name := "Lyon" })]

/-- Two sample stadium rows. -/
def stadium_paris : Stadium := { team := "Paris", latitude := 48, longitude := 2 }

/-- Second sample stadium row. -/
def stadium_lyon : Stadium := { team := "Lyon", latitude := 45, longitude := 4 }

/-- A one-row existing output file covering the pair Paris–Lyon. -/
def rows_paris_lyon : List RouteData :=
  [{ departure := "Paris", arrival := "Lyon", travel_time_seconds := 100,
     distance_km := 50, emissions_kg_co2 := 20, transport_type := "car",
     route_details := .carNoRoute }]

/-- Calculator that fails for every pair (as the plane calculator does when no
airport resolves): models `calculate_route` returning `None`. -/
def plane_fail_calc : String → String → ℚ × ℚ → ℚ × ℚ → Option RouteData :=
  fun dep arr dc ac => PlaneTrajetService.calculate_route gcZero road_fail [] none none dep arr dc ac

/-- Sample station row matched to the Lyon stadium. -/
def gare_row1 : GareRow :=
  { stop_area_id := "SA1", gare_name := "Gare Part-Dieu", stadium_name := "Groupama Stadium",
    team_name := "Lyon", latitude := 45, longitude := 4 }

/-- Sample station row matched to the Marseille stadium. -/
def gare_row2 : GareRow :=
  { stop_area_id := "SA2", gare_name := "Gare Saint-Charles", stadium_name := "Velodrome",
    team_name := "Marseille", latitude := 43, longitude := 5 }

/-- Sample station mapping for the train witness. -/
def gare_sample : List GareRow := [gare_row1, gare_row2]

/-- Sample stadium-coordinate lookup for the train witness. -/
def stadium_coords_sample : String → Option (ℚ × ℚ) := fun name =>
  if name = "Groupama Stadium" then some (45, 4)
  else if name = "Velodrome" then some (43, 5)
  else none

/-- Sample journey between the two sample stations, 3600 s long. -/
def journey_sample : Journey :=
  { stop_area_departure_id := "SA1", stop_area_arrival_id := "SA2",
    sections := [⟨3600, 2000, [], "Gare Part-Dieu", "Gare Saint-Charles", "public_transport"⟩] }

/-! ## Theorems -/

/-- Helper: full evaluation of the car calculator on a successful lookup. -/
theorem car_route_spec (road : String → String → Option (ℚ × ℤ))
    (departure arrival : String) (dc ac : ℚ × ℚ) (d : ℚ) (t : ℤ)
    (h : road (format_coordinates dc.1 dc.2) (format_coordinates ac.1 ac.2) = some (d, t)) :
    CarTrajetService.calculate_route road departure arrival dc ac true =
    { departure := departure
      arrival := arrival
      travel_time_seconds := t * 2
      distance_km := d * 2
      emissions_kg_co2 := AUTO_CAR_EMISSION_FACTOR * d * NUMBER_OF_PASSENGERS * 2
      transport_type := "car"
      route_details := .carOk d t (AUTO_CAR_EMISSION_FACTOR * d * NUMBER_OF_PASSENGERS)
        [{ step_type := "car", from_name := departure, to_name := arrival,
           distance_km := d, travel_time_seconds := t },
         { step_type := "car", from_name := arrival, to_name := departure,
           distance_km := d, travel_time_seconds := t }] } := by
  simp [CarTrajetService.calculate_route, CarTrajetService.calculate_emissions, h]

/-- Helper: full evaluation of the car calculator on a failed lookup. -/
theorem car_route_fail (road : String → String → Option (ℚ × ℤ))
    (departure arrival : String) (dc ac : ℚ × ℚ)
    (h : road (format_coordinates dc.1 dc.2) (format_coordinates ac.1 ac.2) = none) :
    CarTrajetService.calculate_route road departure arrival dc ac true =
    { departure := departure
      arrival := arrival
      travel_time_seconds := 0
      distance_km := 0
      emissions_kg_co2 := 0
      transport_type := "car"
      route_details := .carNoRoute } := by
  simp [CarTrajetService.calculate_route, h]

/-- Claim C1: for the Car Calculator, a successful one-way lookup `(d, t)`
yields a round-trip route with `distance_km = 2 d`,
`travel_time_seconds = 2 t`, and
`emissions_kg_co2 = 2 × d × passengers × factor`; in particular a 300 km /
10800 s one-way lookup yields 600 km, 21600 s and 900 kg CO2. -/
theorem C1_car_round_trip (road : String → String → Option (ℚ × ℤ))
    (departure arrival : String) (dc ac : ℚ × ℚ) (d : ℚ) (t : ℤ)
    (h : road (format_coordinates dc.1 dc.2) (format_coordinates ac.1 ac.2) = some (d, t)) :
    ((CarTrajetService.calculate_route road departure arrival dc ac true).distance_km = 2 * d ∧
     (CarTrajetService.calculate_route road departure arrival dc ac true).travel_time_seconds = 2 * t ∧
     (CarTrajetService.calculate_route road departure arrival dc ac true).emissions_kg_co2 =
       2 * d * NUMBER_OF_PASSENGERS * AUTO_CAR_EMISSION_FACTOR) ∧
    ((CarTrajetService.calculate_route road300 "Stade A" "Stade B" (0, 0) (0, 1) true).distance_km = 600 ∧
     (CarTrajetService.calculate_route road300 "Stade A" "Stade B" (0, 0) (0, 1) true).travel_time_seconds = 21600 ∧
     (CarTrajetService.calculate_route road300 "Stade A" "Stade B" (0, 0) (0, 1) true).emissions_kg_co2 = 900) := by
  constructor
  · rw [car_route_spec road departure arrival dc ac d t h]
    refine ⟨by ring, by ring, by ring⟩
  · rw [car_route_spec road300 "Stade A" "Stade B" (0, 0) (0, 1) 300 10800 rfl]
    refine ⟨by norm_num, by norm_num, by norm_num [NUMBER_OF_PASSENGERS, AUTO_CAR_EMISSION_FACTOR]⟩

/-- Witness for C1 at the concrete 300 km / 10800 s scenario. -/
theorem C1_car_round_trip_witness :
    road300 (format_coordinates 0 0) (format_coordinates 0 1) = some (300, 10800) ∧
    (CarTrajetService.calculate_route road300 "Stade A" "Stade B" (0, 0) (0, 1) true).distance_km = 600 := by
  refine ⟨rfl, ?_⟩
  exact (C1_car_round_trip road300 "Stade A" "Stade B" (0, 0) (0, 1) 300 10800 rfl).2.1

/-- Claim C6 amended theorem: the road-distance cache loader degrades to an
empty cache (with a warning on a malformed file, an info message on a missing
one) and never raises; the airport cache loader, by contrast, propagates any
read failure — including a missing file — as an uncaught exception. -/
theorem C6_cache_load_degradation :
    (∀ e, BaseTransportService.load_road_distance_cache true (.error e) = .ok [] true) ∧
    (∀ r, BaseTransportService.load_road_distance_cache false r = .ok [] false) ∧
    (∀ e, PlaneTrajetService.load_airport_cache (.error e) = .raised e) := by
  exact ⟨fun e => rfl, fun r => rfl, fun e => rfl⟩

/-- Claim C6 counterexample: a missing airport cache file makes
`_load_airport_cache` raise instead of degrading to an empty cache. -/
theorem C6_counterexample :
    PlaneTrajetService.load_airport_cache (Except.error PdReadError.fileNotFound) =
      .raised PdReadError.fileNotFound := rfl

/-- Claim C7: once a road distance has been inserted (which the service does
only after a cache miss in both orderings), the lookup returns the same stored
value for both argument orders. -/
theorem C7_cache_symmetry (cache : List (String × ℚ × ℤ)) (A B : String) (d : ℚ) (t : ℤ)
    (h : BaseTransportService.get_cached_road_distance cache A B = none) :
    BaseTransportService.get_cached_road_distance
      (BaseTransportService.cache_road_distance cache A B d t) A B = some (d, t) ∧
    BaseTransportService.get_cached_road_distance
      (BaseTransportService.cache_road_distance cache A B d t) B A = some (d, t) := by
  have h1 : cache.lookup (BaseTransportService.road_key A B) = none := by
    unfold BaseTransportService.get_cached_road_distance at h
    cases hk : cache.lookup (BaseTransportService.road_key A B) with
    | none => rfl
    | some v => rw [hk] at h; simp at h
  have h2 : cache.lookup (BaseTransportService.road_key B A) = none := by
    unfold BaseTransportService.get_cached_road_distance at h
    rw [h1] at h
    simpa using h
  constructor
  · simp [BaseTransportService.get_cached_road_distance,
      BaseTransportService.cache_road_distance, List.lookup]
  · by_cases hbe : BaseTransportService.road_key B A = BaseTransportService.road_key A B
    · simp [BaseTransportService.get_cached_road_distance,
        BaseTransportService.cache_road_distance, List.lookup, hbe]
    · have hbeq : (BaseTransportService.road_key B A == BaseTransportService.road_key A B) = false :=
        beq_eq_false_iff_ne.mpr hbe
      simp [BaseTransportService.get_cached_road_distance,
        BaseTransportService.cache_road_distance, List.lookup, hbeq, h1, h2]

/-- Witness for C7 on an empty cache and concrete coordinate strings. -/
theorem C7_cache_symmetry_witness :
    BaseTransportService.get_cached_road_distance [] "45,4" "43,5" = none ∧
    BaseTransportService.get_cached_road_distance
      (BaseTransportService.cache_road_distance [] "45,4" "43,5" 10 600) "43,5" "45,4" =
      some (10, 600) := by
  exact ⟨rfl, (C7_cache_symmetry [] "45,4" "43,5" 10 600 rfl).2⟩

/-- Helper: if every attempt up to `retries` fails, the retry loop exhausts
and returns `none`. -/
theorem make_request_attempts_all_fail {α : Type} (responses : ℕ → Except RequestError α) :
    ∀ (retries attempt : ℕ),
      (∀ i, i ≤ retries → ∃ e, responses (attempt + i) = .error e) →
      BaseTransportService.make_request_attempts responses attempt retries = none := by
  intro retries
  induction retries with
  | zero =>
    intro attempt h
    obtain ⟨e, he⟩ := h 0 (Nat.le_refl 0)
    rw [Nat.add_zero] at he
    simp only [BaseTransportService.make_request_attempts, he]
  | succ r ih =>
    intro attempt h
    obtain ⟨e, he⟩ := h 0 (Nat.zero_le _)
    rw [Nat.add_zero] at he
    simp only [BaseTransportService.make_request_attempts, he]
    exact ih (attempt + 1) (fun i hi => by
      obtain ⟨e2, he2⟩ := h (i + 1) (Nat.succ_le_succ hi)
      have harith : attempt + (i + 1) = attempt + 1 + i := by omega
      rw [harith] at he2
      exact ⟨e2, he2⟩)

/-- Helper: if the first success happens within the retry budget, the retry
loop returns it. -/
theorem make_request_attempts_first_ok {α : Type} (responses : ℕ → Except RequestError α) :
    ∀ (retries attempt j : ℕ) (v : α), j ≤ retries →
      (∀ i, i < j → ∃ e, responses (attempt + i) = .error e) →
      responses (attempt + j) = .ok v →
      BaseTransportService.make_request_attempts responses attempt retries = some v := by
  intro retries
  induction retries with
  | zero =>
    intro attempt j v hj _ hok
    have hj0 : j = 0 := Nat.le_zero.mp hj
    subst hj0
    rw [Nat.add_zero] at hok
    simp only [BaseTransportService.make_request_attempts, hok]
  | succ r ih =>
    intro attempt j v hj h hok
    cases j with
    | zero =>
      rw [Nat.add_zero] at hok
      simp only [BaseTransportService.make_request_attempts, hok]
    | succ k =>
      obtain ⟨e, he⟩ := h 0 (Nat.succ_pos k)
      rw [Nat.add_zero] at he
      simp only [BaseTransportService.make_request_attempts, he]
      refine ih (attempt + 1) k v (Nat.le_of_succ_le_succ hj) (fun i hi => ?_) ?_
      · obtain ⟨e2, he2⟩ := h (i + 1) (Nat.succ_lt_succ hi)
        have harith : attempt + (i + 1) = attempt + 1 + i := by omega
        rw [harith] at he2
        exact ⟨e2, he2⟩
      · have harith : attempt + (k + 1) = attempt + 1 + k := by omega
        rw [harith] at hok
        exact hok

/-- Helper: the retry loop only ever inspects attempts `attempt .. attempt +
retries`, so two response streams agreeing there give the same result. -/
theorem make_request_attempts_congr {α : Type} (f g : ℕ → Except RequestError α) :
    ∀ (retries attempt : ℕ),
      (∀ i, i ≤ retries → g (attempt + i) = f (attempt + i)) →
      BaseTransportService.make_request_attempts g attempt retries =
      BaseTransportService.make_request_attempts f attempt retries := by
  intro retries
  induction retries with
  | zero =>
    intro attempt h
    have h0 := h 0 (Nat.le_refl 0)
    rw [Nat.add_zero] at h0
    simp only [BaseTransportService.make_request_attempts, h0]
  | succ r ih =>
    intro attempt h
    have h0 := h 0 (Nat.zero_le _)
    rw [Nat.add_zero] at h0
    simp only [BaseTransportService.make_request_attempts, h0]
    cases hf : f attempt with
    | ok data => simp only [hf]
    | error e =>
      simp only [hf]
      exact ih (attempt + 1) (fun i hi => by
        have := h (i + 1) (Nat.succ_le_succ hi)
        have harith : attempt + (i + 1) = attempt + 1 + i := by omega
        rw [harith] at this
        exact this)

/-- Claim C8: a gateway request is retried a bounded number of times — the
result depends only on the outcomes of attempts 0..3 (the initial attempt plus
3 retries); if all four fail the call returns `None` rather than raising, and
the first success within the budget is returned. -/
theorem C8_retry_bounded {α : Type} (responses : ℕ → Except RequestError α) :
    ((∀ i, i ≤ 3 → ∃ e, responses i = .error e) →
      BaseTransportService.make_google_maps_request responses = none) ∧
    (∀ j v, j ≤ 3 → (∀ i, i < j → ∃ e, responses i = .error e) →
      responses j = .ok v →
      BaseTransportService.make_google_maps_request responses = some v) ∧
    (∀ responses2 : ℕ → Except RequestError α, (∀ i, i ≤ 3 → responses2 i = responses i) →
      BaseTransportService.make_google_maps_request responses2 =
        BaseTransportService.make_google_maps_request responses) := by
  refine ⟨fun h => ?_, fun j v hj h hok => ?_, fun responses2 h => ?_⟩
  · exact make_request_attempts_all_fail responses 3 0
      (fun i hi => by simpa using h i hi)
  · exact make_request_attempts_first_ok responses 3 0 j v hj
      (fun i hi => by simpa using h i hi) (by simpa using hok)
  · exact make_request_attempts_congr responses responses2 3 0
      (fun i hi => by simpa using h i hi)

/-- Witness for C8: a stream that always times out exhausts the retry budget
and yields `none`. -/
theorem C8_retry_bounded_witness :
    (∀ i, i ≤ 3 → ∃ e, err_responses i = Except.error e) ∧
    BaseTransportService.make_google_maps_request err_responses = none := by
  refine ⟨fun i _ => ⟨.timeout, rfl⟩, ?_⟩
  exact (C8_retry_bounded err_responses).1 (fun i _ => ⟨.timeout, rfl⟩)

/-- Helper: field-by-field characterization of the `_trip_stats` accumulation
loop from an arbitrary accumulator. -/
theorem trip_stats_foldl (gc : ℚ → ℚ → ℚ → ℚ → ℚ) :
    ∀ (l : List JourneySection) (acc : TripStats),
      (l.foldl (TrainTrajetService.trip_stats_step gc) acc).duration_s =
        acc.duration_s + (l.map JourneySection.duration).sum ∧
      (l.foldl (TrainTrajetService.trip_stats_step gc) acc).carbon_emission_kgCO2 =
        acc.carbon_emission_kgCO2 + (l.map (fun s => s.co2_emission_value / 1000)).sum ∧
      (l.foldl (TrainTrajetService.trip_stats_step gc) acc).distance_km =
        acc.distance_km + (l.map (fun s => TrainTrajetService.compute_section_distance gc s)).sum ∧
      (l.foldl (TrainTrajetService.trip_stats_step gc) acc).details =
        acc.details ++ (l.filter (fun s =>
          decide (0 < TrainTrajetService.compute_section_distance gc s))).map
          (TrainTrajetService.section_detail gc) := by
  intro l
  induction l with
  | nil => intro acc; simp
  | cons s rest ih =>
    intro acc
    obtain ⟨ihd, ihc, ihk, ihdet⟩ := ih (TrainTrajetService.trip_stats_step gc acc s)
    rw [List.foldl_cons]
    refine ⟨?_, ?_, ?_, ?_⟩
    · rw [ihd]
      simp [TrainTrajetService.trip_stats_step]
      ring
    · rw [ihc]
      simp [TrainTrajetService.trip_stats_step]
      ring
    · rw [ihk]
      simp [TrainTrajetService.trip_stats_step]
      ring
    · rw [ihdet]
      by_cases hpos : 0 < TrainTrajetService.compute_section_distance gc s
      · simp [TrainTrajetService.trip_stats_step, hpos, TrainTrajetService.section_detail,
          List.filter_cons]
      · simp [TrainTrajetService.trip_stats_step, hpos, List.filter_cons]

/-- Claim C10: `_trip_stats` adds every section's duration and CO2 to the
journey totals, but its per-section `details` list keeps exactly the sections
whose integrated polyline distance is positive; any section with fewer than
two geojson coordinates has distance 0 and is therefore omitted, so the
details may account for less time/CO2 than the totals (witnessed by a
duration-3600 section with no coordinates yielding empty details). -/
theorem C10_trip_stats_details (gc : ℚ → ℚ → ℚ → ℚ → ℚ) (sections : List JourneySection) :
    ((TrainTrajetService.trip_stats gc sections).duration_s =
        (sections.map JourneySection.duration).sum ∧
     (TrainTrajetService.trip_stats gc sections).carbon_emission_kgCO2 =
        (sections.map (fun s => s.co2_emission_value / 1000)).sum ∧
     (TrainTrajetService.trip_stats gc sections).details =
        (sections.filter (fun s =>
          decide (0 < TrainTrajetService.compute_section_distance gc s))).map
          (TrainTrajetService.section_detail gc)) ∧
    (∀ sec : JourneySection, sec.geojson_coordinates.length < 2 →
        TrainTrajetService.compute_section_distance gc sec = 0) ∧
    (((TrainTrajetService.trip_stats gcZero [zero_coord_section]).details.map
        SectionDetail.time_s).sum = 0 ∧
     (TrainTrajetService.trip_stats gcZero [zero_coord_section]).duration_s = 3600) := by
  refine ⟨?_, ?_, ?_⟩
  · obtain ⟨hd, hc, _, hdet⟩ := trip_stats_foldl gc sections
      { carbon_emission_kgCO2 := 0, distance_km := 0, duration_s := 0, details := [] }
    exact ⟨by simpa [TrainTrajetService.trip_stats] using hd,
      by simpa [TrainTrajetService.trip_stats] using hc,
      by simpa [TrainTrajetService.trip_stats] using hdet⟩
  · intro sec hsec
    simp [TrainTrajetService.compute_section_distance, hsec]
  · exact ⟨rfl, rfl⟩

/-- Witness for C10: the waiting section has fewer than two vertices and
integrated distance 0. -/
theorem C10_trip_stats_details_witness :
    zero_coord_section.geojson_coordinates.length < 2 ∧
    TrainTrajetService.compute_section_distance gcZero zero_coord_section = 0 := by
  refine ⟨by norm_num [zero_coord_section], ?_⟩
  exact (C10_trip_stats_details gcZero []).2.1 zero_coord_section
    (by norm_num [zero_coord_section])

/-- Helper: `pyMinBy` returns an element whose key is minimal over the whole
traversed list. -/
theorem pyMinBy_le {α : Type} (key : α → ℤ) :
    ∀ (xs : List α) (x : α), ∀ j ∈ x :: xs, key (pyMinBy key x xs) ≤ key j := by
  intro xs
  induction xs with
  | nil =>
    intro x j hj
    simp only [List.mem_cons, List.not_mem_nil, or_false] at hj
    subst hj
    simp [pyMinBy]
  | cons y ys ih =>
    intro x j hj
    simp only [pyMinBy]
    by_cases hlt : key y < key x
    · rw [if_pos hlt]
      rcases List.mem_cons.mp hj with h | h
      · rw [h]
        have h1 := ih y y (List.mem_cons_self y ys)
        omega
      · exact ih y j h
    · rw [if_neg hlt]
      rcases List.mem_cons.mp hj with h | h
      · rw [h]
        exact ih x x (List.mem_cons_self x ys)
      · rcases List.mem_cons.mp h with h2 | h2
        · rw [h2]
          have h1 := ih x x (List.mem_cons_self x ys)
          omega
        · exact ih x j (List.mem_cons.mpr (Or.inr h2))

/-- Helper: `pyMinBy` returns the first-seen element achieving the minimal
key, phrased via `List.find?`. -/
theorem pyMinBy_first {α : Type} (key : α → ℤ) :
    ∀ (xs : List α) (x : α),
      List.find? (fun j => decide (key j = key (pyMinBy key x xs))) (x :: xs) =
        some (pyMinBy key x xs) := by
  intro xs
  induction xs with
  | nil =>
    intro x
    simp [pyMinBy]
  | cons y ys ih =>
    intro x
    by_cases hlt : key y < key x
    · have hres : pyMinBy key x (y :: ys) = pyMinBy key y ys := by
        simp [pyMinBy, hlt]
      rw [hres]
      have h1 : key (pyMinBy key y ys) ≤ key y := pyMinBy_le key ys y y (List.mem_cons_self y ys)
      have hxne : (fun j => decide (key j = key (pyMinBy key y ys))) x = false := by
        simp only [decide_eq_false_iff_not]
        omega
      rw [List.find?_cons_of_neg _ (by simp [hxne])]
      exact ih y
    · have hxy : key x ≤ key y := by omega
      have hres : pyMinBy key x (y :: ys) = pyMinBy key x ys := by
        simp [pyMinBy, hlt]
      rw [hres]
      have hmin : key (pyMinBy key x ys) ≤ key x := pyMinBy_le key ys x x (List.mem_cons_self x ys)
      by_cases hx : key x = key (pyMinBy key x ys)
      · have hfind := ih x
        rw [List.find?_cons_of_pos _ (by simp [hx])] at hfind
        rw [List.find?_cons_of_pos _ (by simp [hx])]
        exact hfind
      · have hy : key y ≠ key (pyMinBy key x ys) := by omega
        have hfind := ih x
        rw [List.find?_cons_of_neg _ (by simp [hx])] at hfind
        rw [List.find?_cons_of_neg _ (by simp [hx]),
          List.find?_cons_of_neg _ (by simp [hy])]
        exact hfind

/-- Claim C3: for every non-empty candidate list the Train Calculator's
`fastest_train = min(week_trains, key=total duration)` selects a journey of
minimal total duration, and on exact ties the first-seen one (it is the first
list element whose key equals the selected key); among synthetic journeys of
total durations [5400, 3600, 7200] it selects the one with duration 3600. -/
theorem C3_fastest_selection (gc : ℚ → ℚ → ℚ → ℚ → ℚ) (t : Journey) (ts : List Journey) :
    ((∀ j ∈ t :: ts,
        (TrainTrajetService.trip_stats gc
          (pyMinBy (fun train => (TrainTrajetService.trip_stats gc train.sections).duration_s)
            t ts).sections).duration_s ≤
        (TrainTrajetService.trip_stats gc j.sections).duration_s) ∧
     List.find? (fun j => decide ((TrainTrajetService.trip_stats gc j.sections).duration_s =
        (TrainTrajetService.trip_stats gc
          (pyMinBy (fun train => (TrainTrajetService.trip_stats gc train.sections).duration_s)
            t ts).sections).duration_s)) (t :: ts) =
        some (pyMinBy (fun train => (TrainTrajetService.trip_stats gc train.sections).duration_s)
          t ts)) ∧
    (pyMinBy (fun train => (TrainTrajetService.trip_stats gcZero train.sections).duration_s)
        (synth_journey 5400) [synth_journey 3600, synth_journey 7200] = synth_journey 3600 ∧
     (TrainTrajetService.trip_stats gcZero (synth_journey 3600).sections).duration_s = 3600) := by
  refine ⟨⟨?_, ?_⟩, ?_, ?_⟩
  · exact pyMinBy_le (fun train => (TrainTrajetService.trip_stats gc train.sections).duration_s) ts t
  · exact pyMinBy_first (fun train => (TrainTrajetService.trip_stats gc train.sections).duration_s) ts t
  · rfl
  · rfl

/-- Witness for C3: the minimality part applied to the synthetic journeys. -/
theorem C3_fastest_selection_witness :
    synth_journey 7200 ∈ [synth_journey 5400, synth_journey 3600, synth_journey 7200] ∧
    (TrainTrajetService.trip_stats gcZero
      (pyMinBy (fun train => (TrainTrajetService.trip_stats gcZero train.sections).duration_s)
        (synth_journey 5400) [synth_journey 3600, synth_journey 7200]).sections).duration_s ≤
    (TrainTrajetService.trip_stats gcZero (synth_journey 7200).sections).duration_s := by
  refine ⟨List.Mem.tail _ (List.Mem.tail _ (List.Mem.head _)), ?_⟩
  exact (C3_fastest_selection gcZero (synth_journey 5400)
    [synth_journey 3600, synth_journey 7200]).1.1 (synth_journey 7200)
    (List.Mem.tail _ (List.Mem.tail _ (List.Mem.head _)))

/-- Helper: full evaluation of `_calculate_car_part` when both station rows,
both stadium coordinates and both road lookups resolve: the result is the sum
of two internally round-trip-doubled car legs. -/
theorem car_part_spec (road : String → String → Option (ℚ × ℤ)) (gp : List GareRow)
    (sl : String → Option (ℚ × ℚ)) (dep arr id1 id2 : String) (gdep garr : GareRow)
    (depSt arrSt : ℚ × ℚ) (d1 : ℚ) (t1 : ℤ) (d2 : ℚ) (t2 : ℤ)
    (hdep : TrainTrajetService.find_row gp id1 = some gdep)
    (harr : TrainTrajetService.find_row gp id2 = some garr)
    (hsd : sl gdep.stadium_name = some depSt)
    (hsa : sl garr.stadium_name = some arrSt)
    (h1 : road (format_coordinates depSt.1 depSt.2)
      (format_coordinates gdep.latitude gdep.longitude) = some (d1, t1))
    (h2 : road (format_coordinates arrSt.1 arrSt.2)
      (format_coordinates garr.latitude garr.longitude) = some (d2, t2)) :
    TrainTrajetService.calculate_car_part road gp sl dep arr id1 id2 =
    some { departure := dep
           arrival := arr
           travel_time_seconds := t1 * 2 + t2 * 2
           distance_km := d1 * 2 + d2 * 2
           emissions_kg_co2 := AUTO_CAR_EMISSION_FACTOR * d1 * NUMBER_OF_PASSENGERS * 2 +
             AUTO_CAR_EMISSION_FACTOR * d2 * NUMBER_OF_PASSENGERS * 2
           transport_type := "car"
           route_details := .carPartSegments
             [{ from_name := gdep.stadium_name, to_name := gdep.gare_name,
                distance_km := d1 * 2, travel_time_seconds := t1 * 2,
                emissions_kg_co2 := AUTO_CAR_EMISSION_FACTOR * d1 * NUMBER_OF_PASSENGERS * 2 },
              { from_name := garr.gare_name, to_name := garr.stadium_name,
                distance_km := d2 * 2, travel_time_seconds := t2 * 2,
                emissions_kg_co2 := AUTO_CAR_EMISSION_FACTOR * d2 * NUMBER_OF_PASSENGERS * 2 }] } := by
  have hleg1 := car_route_spec road gdep.stadium_name gdep.gare_name depSt
    (gdep.latitude, gdep.longitude) d1 t1 (by simpa using h1)
  have hleg2 := car_route_spec road garr.stadium_name garr.gare_name arrSt
    (garr.latitude, garr.longitude) d2 t2 (by simpa using h2)
  simp [TrainTrajetService.calculate_car_part, hdep, harr, hsd, hsa, hleg1, hleg2]

/-- Claim C2: whenever at least one journey is found and the feeder car part
resolves, the final train Route equals 2× the selected fastest journey's
one-way duration/distance/CO2 plus the feeder car Route's figures taken as-is
(the feeder legs are already doubled inside the Car Calculator and are not
re-doubled here), and only the train CO2 term is additionally multiplied by
the passenger count. -/
theorem C2_train_combines (gc : ℚ → ℚ → ℚ → ℚ → ℚ)
    (road : String → String → Option (ℚ × ℤ)) (gp : List GareRow)
    (sl : String → Option (ℚ × ℚ)) (departure arrival : String)
    (t : Journey) (ts : List Journey) (gdep garr : GareRow) (depSt arrSt : ℚ × ℚ)
    (d1 : ℚ) (t1 : ℤ) (d2 : ℚ) (t2 : ℤ)
    (hdep : TrainTrajetService.find_row gp
      (pyMinBy (fun train => (TrainTrajetService.trip_stats gc train.sections).duration_s)
        t ts).stop_area_departure_id = some gdep)
    (harr : TrainTrajetService.find_row gp
      (pyMinBy (fun train => (TrainTrajetService.trip_stats gc train.sections).duration_s)
        t ts).stop_area_arrival_id = some garr)
    (hsd : sl gdep.stadium_name = some depSt)
    (hsa : sl garr.stadium_name = some arrSt)
    (h1 : road (format_coordinates depSt.1 depSt.2)
      (format_coordinates gdep.latitude gdep.longitude) = some (d1, t1))
    (h2 : road (format_coordinates arrSt.1 arrSt.2)
      (format_coordinates garr.latitude garr.longitude) = some (d2, t2)) :
    ∃ r, TrainTrajetService.calculate_route gc road gp sl departure arrival (t :: ts) = some r ∧
      r.travel_time_seconds =
        (TrainTrajetService.trip_stats gc
          (pyMinBy (fun train => (TrainTrajetService.trip_stats gc train.sections).duration_s)
            t ts).sections).duration_s * 2 + (t1 * 2 + t2 * 2) ∧
      r.distance_km =
        (TrainTrajetService.trip_stats gc
          (pyMinBy (fun train => (TrainTrajetService.trip_stats gc train.sections).duration_s)
            t ts).sections).distance_km * 2 + (d1 * 2 + d2 * 2) ∧
      r.emissions_kg_co2 =
        (TrainTrajetService.trip_stats gc
          (pyMinBy (fun train => (TrainTrajetService.trip_stats gc train.sections).duration_s)
            t ts).sections).carbon_emission_kgCO2 * 2 * NUMBER_OF_PASSENGERS +
          (AUTO_CAR_EMISSION_FACTOR * d1 * NUMBER_OF_PASSENGERS * 2 +
           AUTO_CAR_EMISSION_FACTOR * d2 * NUMBER_OF_PASSENGERS * 2) := by
  have hcar := car_part_spec road gp sl departure arrival _ _ gdep garr depSt arrSt
    d1 t1 d2 t2 hdep harr hsd hsa h1 h2
  simp only [TrainTrajetService.calculate_route, hcar]
  exact ⟨_, rfl, rfl, rfl, rfl⟩

/-- Witness for C2 on a one-journey candidate list between the two sample
stations with a constant 10 km / 600 s road lookup. -/
theorem C2_train_combines_witness :
    stadium_coords_sample "Groupama Stadium" = some (45, 4) ∧
    (∃ r, TrainTrajetService.calculate_route gcZero road10 gare_sample stadium_coords_sample
        "Lyon" "Marseille" [journey_sample] = some r ∧
      r.travel_time_seconds = 9600 ∧ r.distance_km = 40 ∧ r.emissions_kg_co2 = 260) := by
  refine ⟨rfl, ?_⟩
  obtain ⟨r, hr, ht, hd, he⟩ := C2_train_combines gcZero road10 gare_sample
    stadium_coords_sample "Lyon" "Marseille" journey_sample [] gare_row1 gare_row2
    (45, 4) (43, 5) 10 600 10 600 rfl rfl rfl rfl rfl rfl
  refine ⟨r, hr, ?_, ?_, ?_⟩
  · rw [ht]; rfl
  · rw [hd]
    norm_num [TrainTrajetService.trip_stats, TrainTrajetService.trip_stats_step,
      TrainTrajetService.compute_section_distance, pyMinBy, journey_sample, gcZero]
  · rw [he]
    norm_num [TrainTrajetService.trip_stats, TrainTrajetService.trip_stats_step,
      TrainTrajetService.compute_section_distance, pyMinBy, journey_sample, gcZero,
      NUMBER_OF_PASSENGERS, AUTO_CAR_EMISSION_FACTOR]

/-- Helper: full evaluation of the plane calculator when both airports resolve
and both feeder road lookups succeed.  The flight distance is doubled; the
feeder legs enter with their one-way figures. -/
theorem plane_route_spec (gc : ℚ → ℚ → ℚ → ℚ → ℚ)
    (road : String → String → Option (ℚ × ℤ)) (cache : List (String × AirportData))
    (prd pra : Option (List Place)) (departure arrival : String) (dc ac : ℚ × ℚ)
    (da aa : AirportData) (d1 : ℚ) (t1 : ℤ) (d2 : ℚ) (t2 : ℤ)
    (hdep : PlaneTrajetService.get_nearest_airport cache prd departure dc.1 dc.2 = .ok da)
    (harr : PlaneTrajetService.get_nearest_airport cache pra arrival ac.1 ac.2 = .ok aa)
    (h1 : road (format_coordinates dc.1 dc.2)
      (format_coordinates da.latitude da.longitude) = some (d1, t1))
    (h2 : road (format_coordinates aa.latitude aa.longitude)
      (format_coordinates ac.1 ac.2) = some (d2, t2)) :
    PlaneTrajetService.calculate_route gc road cache prd pra departure arrival dc ac =
    some { departure := departure
           arrival := arrival
           travel_time_seconds := PlaneTrajetService.calculate_flight_time
             (gc da.latitude da.longitude aa.latitude aa.longitude * 2) + t1 + t2
           distance_km := gc da.latitude da.longitude aa.latitude aa.longitude * 2 + d1 + d2
           emissions_kg_co2 := PlaneTrajetService.jet_fuel_to_co2 *
               PlaneTrajetService.calculate_fuel_consumption
                 (gc da.latitude da.longitude aa.latitude aa.longitude * 2) *
               PlaneTrajetService.multiplication_factor_other_than_fuel +
             AUTO_CAR_EMISSION_FACTOR * NUMBER_OF_PASSENGERS * (d1 + d2)
           transport_type := "plane"
           route_details := .planeOk
             (gc da.latitude da.longitude aa.latitude aa.longitude * 2)
             (PlaneTrajetService.calculate_flight_time
               (gc da.latitude da.longitude aa.latitude aa.longitude * 2))
             (d1 + d2) (t1 + t2)
             (PlaneTrajetService.calculate_fuel_consumption
               (gc da.latitude da.longitude aa.latitude aa.longitude * 2))
             (PlaneTrajetService.jet_fuel_to_co2 *
               PlaneTrajetService.calculate_fuel_consumption
                 (gc da.latitude da.longitude aa.latitude aa.longitude * 2) *
               PlaneTrajetService.multiplication_factor_other_than_fuel)
             (AUTO_CAR_EMISSION_FACTOR * NUMBER_OF_PASSENGERS * (d1 + d2))
             ((if d1 = 0 then "No autocar departure route found" else "") ++
              (if d2 = 0 then "No autocar arrival route found" else "")) } := by
  simp only [PlaneTrajetService.calculate_route, hdep, harr, h1, h2]

/-- Helper: the plane calculator returns `None` whenever either endpoint's
airport resolution yields an error dict. -/
theorem plane_route_error (gc : ℚ → ℚ → ℚ → ℚ → ℚ)
    (road : String → String → Option (ℚ × ℤ)) (cache : List (String × AirportData))
    (prd pra : Option (List Place)) (departure arrival : String) (dc ac : ℚ × ℚ)
    (h : (∃ m, PlaneTrajetService.get_nearest_airport cache prd departure dc.1 dc.2 = .error m) ∨
         (∃ m, PlaneTrajetService.get_nearest_airport cache pra arrival ac.1 ac.2 = .error m)) :
    PlaneTrajetService.calculate_route gc road cache prd pra departure arrival dc ac = none := by
  rcases h with ⟨m, hm⟩ | ⟨m, hm⟩
  · simp only [PlaneTrajetService.calculate_route, hm]
  · simp only [PlaneTrajetService.calculate_route, hm]
    cases PlaneTrajetService.get_nearest_airport cache prd departure dc.1 dc.2 <;> rfl

/-- Claim C4 amended theorem: when both airports resolve and both feeder road
lookups succeed, the plane route's totals sum the round-trip (doubled) flight
distance/time/emissions plus both feeder legs taken with their one-way
figures — the feeder legs are looked up directly via the shared road-distance
routine and are not round-trip doubled. -/
theorem C4_plane_feeder_one_way (gc : ℚ → ℚ → ℚ → ℚ → ℚ)
    (road : String → String → Option (ℚ × ℤ)) (cache : List (String × AirportData))
    (prd pra : Option (List Place)) (departure arrival : String) (dc ac : ℚ × ℚ)
    (da aa : AirportData) (d1 : ℚ) (t1 : ℤ) (d2 : ℚ) (t2 : ℤ)
    (hdep : PlaneTrajetService.get_nearest_airport cache prd departure dc.1 dc.2 = .ok da)
    (harr : PlaneTrajetService.get_nearest_airport cache pra arrival ac.1 ac.2 = .ok aa)
    (h1 : road (format_coordinates dc.1 dc.2)
      (format_coordinates da.latitude da.longitude) = some (d1, t1))
    (h2 : road (format_coordinates aa.latitude aa.longitude)
      (format_coordinates ac.1 ac.2) = some (d2, t2)) :
    ∃ r, PlaneTrajetService.calculate_route gc road cache prd pra departure arrival dc ac =
        some r ∧
      r.distance_km = gc da.latitude da.longitude aa.latitude aa.longitude * 2 + d1 + d2 ∧
      r.travel_time_seconds = PlaneTrajetService.calculate_flight_time
        (gc da.latitude da.longitude aa.latitude aa.longitude * 2) + t1 + t2 ∧
      r.emissions_kg_co2 = PlaneTrajetService.jet_fuel_to_co2 *
          PlaneTrajetService.calculate_fuel_consumption
            (gc da.latitude da.longitude aa.latitude aa.longitude * 2) *
          PlaneTrajetService.multiplication_factor_other_than_fuel +
        AUTO_CAR_EMISSION_FACTOR * NUMBER_OF_PASSENGERS * (d1 + d2) := by
  rw [plane_route_spec gc road cache prd pra departure arrival dc ac da aa d1 t1 d2 t2
    hdep harr h1 h2]
  exact ⟨_, rfl, rfl, rfl, rfl⟩

/-- Claim C4 counterexample: with a 100 km one-way great-circle stub and 10 km
feeder lookups, the computed total distance is 220 km (feeders not doubled),
not the 240 km the claim's round-trip-doubled feeder legs would give. -/
theorem C4_counterexample :
    (PlaneTrajetService.calculate_route gc100 road10 airport_cache_sample none none
        "Paris" "Lyon" (48, 2) (45, 4)).map RouteData.distance_km = some 220 ∧
    ¬((PlaneTrajetService.calculate_route gc100 road10 airport_cache_sample none none
        "Paris" "Lyon" (48, 2) (45, 4)).map RouteData.distance_km =
      some (2 * gc100 49 2 45 5 + 2 * 10 + 2 * 10)) := by
  have h := plane_route_spec gc100 road10 airport_cache_sample none none "Paris" "Lyon"
    (48, 2) (45, 4) ⟨"Paris Airport", 49, 2, "Paris"⟩ ⟨"Lyon Airport", 45, 5, "Lyon"⟩
    10 600 10 600 rfl rfl rfl rfl
  rw [h]
  constructor
  · norm_num [gc100]
  · norm_num [gc100]

/-- Witness for C4 at the same concrete inputs as the counterexample. -/
theorem C4_plane_feeder_one_way_witness :
    road10 (format_coordinates 48 2) (format_coordinates 49 2) = some (10, 600) ∧
    (∃ r, PlaneTrajetService.calculate_route gc100 road10 airport_cache_sample none none
        "Paris" "Lyon" (48, 2) (45, 4) = some r ∧ r.distance_km = 220) := by
  refine ⟨rfl, ?_⟩
  obtain ⟨r, hr, hd, _, _⟩ := C4_plane_feeder_one_way gc100 road10 airport_cache_sample
    none none "Paris" "Lyon" (48, 2) (45, 4)
    ⟨"Paris Airport", 49, 2, "Paris"⟩ ⟨"Lyon Airport", 45, 5, "Lyon"⟩
    10 600 10 600 rfl rfl rfl rfl
  refine ⟨r, hr, ?_⟩
  rw [hd]
  norm_num [gc100]

/-- Claim C5 counterexample: with no cached airport and a failed places
request, the plane calculator returns `None` for the attempted pair, and the
orchestrator then records no row at all for it — the output contains neither
a sentinel nor any entry for Paris–Lyon even though the pair was attempted. -/
theorem C5_counterexample :
    PlaneTrajetService.calculate_route gcZero road_fail [] none none
      "Paris" "Lyon" (48, 2) (45, 4) = none ∧
    BaseTransportService.process_all_routes plane_fail_calc none
      [stadium_paris, stadium_lyon] = ([], [("Paris", "Lyon")]) := by
  exact ⟨rfl, rfl⟩

/-- Claim C5 amended theorem: a road-lookup failure makes the Car Calculator
return the zero-valued sentinel Route; an empty candidate list makes the Train
Calculator return the zero-valued sentinel Route; but an airport-resolution
failure makes the Plane Calculator return `None`, and the orchestrator records
a row only for truthy results — a `None` result leaves the attempted pair with
no row (and unmarked, so it is retried on restart). -/
theorem C5_failure_handling :
    (∀ (road : String → String → Option (ℚ × ℤ)) (dep arr : String) (dc ac : ℚ × ℚ),
      road (format_coordinates dc.1 dc.2) (format_coordinates ac.1 ac.2) = none →
      CarTrajetService.calculate_route road dep arr dc ac true =
        ⟨dep, arr, 0, 0, 0, "car", .carNoRoute⟩) ∧
    (∀ (gc : ℚ → ℚ → ℚ → ℚ → ℚ) (road : String → String → Option (ℚ × ℤ))
        (gp : List GareRow) (sl : String → Option (ℚ × ℚ)) (dep arr : String),
      TrainTrajetService.calculate_route gc road gp sl dep arr [] =
        some ⟨dep, arr, 0, 0, 0, "train", .trainNoRoute⟩) ∧
    (∀ (gc : ℚ → ℚ → ℚ → ℚ → ℚ) (road : String → String → Option (ℚ × ℤ))
        (cache : List (String × AirportData)) (prd pra : Option (List Place))
        (dep arr : String) (dc ac : ℚ × ℚ),
      ((∃ m, PlaneTrajetService.get_nearest_airport cache prd dep dc.1 dc.2 = .error m) ∨
       (∃ m, PlaneTrajetService.get_nearest_airport cache pra arr ac.1 ac.2 = .error m)) →
      PlaneTrajetService.calculate_route gc road cache prd pra dep arr dc ac = none) ∧
    (∀ (calculator : String → String → ℚ × ℚ → ℚ × ℚ → Option RouteData) (s1 s2 : Stadium),
      (∀ r, calculator s1.team s2.team (s1.latitude, s1.longitude)
          (s2.latitude, s2.longitude) = some r →
        BaseTransportService.process_all_routes calculator none [s1, s2] =
          ([r], [(s1.team, s2.team)])) ∧
      (calculator s1.team s2.team (s1.latitude, s1.longitude)
          (s2.latitude, s2.longitude) = none →
        BaseTransportService.process_all_routes calculator none [s1, s2] =
          ([], [(s1.team, s2.team)]))) := by
  refine ⟨?_, ?_, ?_, ?_⟩
  · intro road dep arr dc ac h
    exact car_route_fail road dep arr dc ac h
  · intro gc road gp sl dep arr
    rfl
  · intro gc road cache prd pra dep arr dc ac h
    exact plane_route_error gc road cache prd pra dep arr dc ac h
  · intro calculator s1 s2
    constructor
    · intro r hr
      simp [BaseTransportService.process_all_routes, BaseTransportService.process_outer,
        BaseTransportService.process_inner, pairs_of, pairMem, hr]
    · intro hr
      simp [BaseTransportService.process_all_routes, BaseTransportService.process_outer,
        BaseTransportService.process_inner, pairs_of, pairMem, hr]

/-- Witness for C5: a failing road lookup produces the recorded car sentinel. -/
theorem C5_failure_handling_witness :
    road_fail (format_coordinates 0 0) (format_coordinates 1 1) = none ∧
    CarTrajetService.calculate_route road_fail "Paris" "Lyon" (0, 0) (1, 1) true =
      ⟨"Paris", "Lyon", 0, 0, 0, "car", .carNoRoute⟩ := by
  exact ⟨rfl, C5_failure_handling.1 road_fail "Paris" "Lyon" (0, 0) (1, 1) rfl⟩

/-- Helper: the inner orchestrator loop changes nothing when every remaining
pair with the fixed departure stadium is already computed. -/
theorem process_inner_all_skipped
    (calculator : String → String → ℚ × ℚ → ℚ × ℚ → Option RouteData) (s : Stadium) :
    ∀ (rest : List Stadium) (pairs : List (String × String)) (routes : List RouteData)
      (calls : List (String × String)),
      (∀ s2 ∈ rest, pairMem pairs s.team s2.team = true) →
      BaseTransportService.process_inner calculator s rest pairs routes calls =
        (pairs, routes, calls) := by
  intro rest
  induction rest with
  | nil => intro pairs routes calls _; rfl
  | cons s2 rest2 ih =>
    intro pairs routes calls h
    simp only [BaseTransportService.process_inner]
    rw [if_pos (h s2 (List.mem_cons_self s2 rest2))]
    exact ih pairs routes calls (fun s3 hs3 => h s3 (List.mem_cons.mpr (Or.inr hs3)))

/-- Helper: the outer orchestrator loop changes nothing when every unordered
pair of stadiums (in traversal order) is already computed. -/
theorem process_outer_all_skipped
    (calculator : String → String → ℚ × ℚ → ℚ × ℚ → Option RouteData) :
    ∀ (stadiums : List Stadium) (pairs : List (String × String)) (routes : List RouteData)
      (calls : List (String × String)),
      List.Pairwise (fun s1 s2 => pairMem pairs s1.team s2.team = true) stadiums →
      BaseTransportService.process_outer calculator stadiums pairs routes calls =
        (routes, calls) := by
  intro stadiums
  induction stadiums with
  | nil => intro pairs routes calls _; rfl
  | cons s rest ih =>
    intro pairs routes calls h
    rw [List.pairwise_cons] at h
    obtain ⟨hhead, htail⟩ := h
    simp only [BaseTransportService.process_outer]
    rw [process_inner_all_skipped calculator s rest pairs routes calls hhead]
    exact ih pairs routes calls htail

/-- Claim C9: if every unordered pair of distinct locations already appears in
the loaded output rows, a re-run rebuilds the computed-pair set from those
rows, invokes the calculator for no pair, and returns the rows unchanged. -/
theorem C9_idempotent_resume
    (calculator : String → String → ℚ × ℚ → ℚ × ℚ → Option RouteData)
    (rows : List RouteData) (stadiums : List Stadium)
    (h : List.Pairwise (fun s1 s2 => pairMem (pairs_of rows) s1.team s2.team = true) stadiums) :
    BaseTransportService.process_all_routes calculator (some rows) stadiums = (rows, []) := by
  simp only [BaseTransportService.process_all_routes]
  exact process_outer_all_skipped calculator stadiums (pairs_of rows) rows [] h

/-- Witness for C9: a complete one-pair output file is returned unchanged with
no calculator invocation. -/
theorem C9_idempotent_resume_witness :
    List.Pairwise (fun s1 s2 => pairMem (pairs_of rows_paris_lyon) s1.team s2.team = true)
      [stadium_paris, stadium_lyon] ∧
    BaseTransportService.process_all_routes plane_fail_calc (some rows_paris_lyon)
      [stadium_paris, stadium_lyon] = (rows_paris_lyon, []) := by
  have hp : List.Pairwise (fun s1 s2 => pairMem (pairs_of rows_paris_lyon) s1.team s2.team = true)
      [stadium_paris, stadium_lyon] := by decide
  exact ⟨hp, C9_idempotent_resume plane_fail_calc rows_paris_lyon [stadium_paris, stadium_lyon] hp⟩
